import Mathlib

/-!
Shallow embedding of the ActionPacks (PoC) policy decision pipeline
(`packages/cli/src/index.ts`): the rule suggester (`policies suggest`),
the rule lookup, and the decision path shared by `dry-run` and `exec`
(schema issues, allowlist enforcement, rate-limit simulation, the
status string and the exit sequences), plus the schema loading stage.
-/

namespace ActionPacks

/-! ### String helpers (JS `String.prototype` operations used by the code) -/

/-- Boolean test: `pre` is an initial segment of `l` (JS `startsWith` on char lists). -/
def charsLead : List Char → List Char → Bool
  | [], _ => true
  | _ :: _, [] => false
  | a :: as, b :: bs => a == b && charsLead as bs

/-- Boolean test: `needle` occurs contiguously somewhere in the list (substring test). -/
def charsHaveSub (needle : List Char) : List Char → Bool
  | [] => needle.isEmpty
  | b :: bs => charsLead needle (b :: bs) || charsHaveSub needle bs

/-- JS `s.startsWith(pre)`. -/
def strStarts (s pre : String) : Bool := charsLead pre.data s.data

/-- Substring containment: `pat` occurs in `hay` (JS `RegExp.test` with a literal pattern). -/
def strContainsSub (hay pat : String) : Bool := charsHaveSub pat.data hay.data

/-- JS `packId.split('@')[0]`: everything before the first `'@'`. -/
def packNameOf (packId : String) : String := String.mk (packId.data.takeWhile (fun c => c != '@'))

/-- JS `s.toLowerCase()` (basic-latin case mapping, character by character). -/
def lowerStr (s : String) : String := String.mk (s.data.map Char.toLower)

theorem charsLead_iff (pre l : List Char) : charsLead pre l = true ↔ pre <+: l := by
  induction pre generalizing l with
  | nil => simp [charsLead]
  | cons a as ih =>
    cases l with
    | nil => simp [charsLead]
    | cons b bs =>
      simp only [charsLead, Bool.and_eq_true, beq_iff_eq, ih, List.cons_prefix_cons]

theorem charsHaveSub_iff (needle l : List Char) :
    charsHaveSub needle l = true ↔ needle <:+: l := by
  induction l with
  | nil =>
    simp only [charsHaveSub, List.isEmpty_iff, List.infix_nil]
  | cons b bs ih =>
    simp only [charsHaveSub, Bool.or_eq_true, charsLead_iff, ih, List.infix_cons_iff]

/-! ### Policy data model (the `Policies`/`PackMeta` record shapes from the code) -/

/-- `rateLimit: { maxCalls: number; windowSec: number }`.  Numbers are modelled as
integers (no clamping is assumed here; see the suggester and the decision path). -/
structure RateLimit where
  maxCalls : Int
  windowSec : Int
deriving Repr, DecidableEq

/-- `confirm?: { message?: string; required?: boolean }`. -/
structure ConfirmSpec where
  message : Option String
  required : Option Bool
deriving Repr, DecidableEq

/-- One entry of `policies.rules` as read back by `dry-run` / `exec`
(every field that the reader treats as optional is an `Option`). -/
structure Rule where
  pack : String
  tool : String
  description : Option String
  confirm : Option ConfirmSpec
  allowlist : Option (List String)
  rateLimit : Option RateLimit
deriving Repr, DecidableEq

/-! ### Rule suggester (`policies suggest` action) -/

/-- The fixed side-effect keyword list from the suggester
(`['send', 'create', 'update', 'delete', 'write', 'post']`). -/
def confirmKeywords : List String := ["send", "create", "update", "delete", "write", "post"]

/-- The alternatives of the sensitive-field pattern
`/(password|secret|token|apikey|api_key|auth|bearer|credential)/i`. -/
def sensitiveNames : List String :=
  ["password", "secret", "token", "apikey", "api_key", "auth", "bearer", "credential"]

/-- Tool metadata consumed by the suggester: `tool.name`, the
`x-actionpack.side_effects` tags (`[]` when absent), the
`x-actionpack.allowlist_fields` list (`[]` when absent), the keys of the
loaded schema's `properties` (`[]` when the schema is missing, unparseable
or has no properties), and the schema's `description`. -/
structure ToolMeta where
  name : String
  sideEffects : List String
  allowlistFields : List String
  schemaProps : List String
  schemaDescription : Option String
deriving Repr, DecidableEq

/-- `defaultLimit = Math.max(1, ...)`, `defaultWindow = Math.max(1, ...)`:
the caller-supplied defaults, clamped once before any rule is built. -/
def suggestDefaults (rl ws : Int) : RateLimit := ⟨max 1 rl, max 1 ws⟩

/-- `needsConfirm = se.some(s => [...].includes(s))` over the lowercased tags. -/
def needsConfirmOf (sideEffects : List String) : Bool :=
  (sideEffects.map lowerStr).any (fun s => confirmKeywords.contains s)

/-- The case-insensitive sensitive-name regex test on a property key. -/
def sensitiveB (k : String) : Bool :=
  sensitiveNames.any (fun p => strContainsSub (lowerStr k) p)

/-- `inferredAllow = schemaProps.filter(k => !/.../i.test(k))`. -/
def inferredAllowOf (schemaProps : List String) : List String :=
  schemaProps.filter (fun k => !(sensitiveB k))

/-- One rule pushed by `policies suggest` for pack id `p` and tool `t`,
with the already-clamped defaults `d`. -/
def suggestRule (p : String) (t : ToolMeta) (d : RateLimit) : Rule :=
  { pack := p
    tool := t.name
    confirm :=
      if needsConfirmOf t.sideEffects then
        some ⟨some ("Proceed with " ++ t.name ++ "?"), some true⟩
      else
        some ⟨none, some false⟩
    allowlist :=
      some (if t.allowlistFields.length != 0 then t.allowlistFields
            else inferredAllowOf t.schemaProps)
    rateLimit := some d
    description := t.schemaDescription }

/-! ### Rule lookup (`dry-run` / `exec`, stage 2) -/

/-- `r.pack === packId && r.tool === toolName`. -/
def exactPred (packId toolName : String) (r : Rule) : Bool :=
  r.pack == packId && r.tool == toolName

/-- `r.pack.startsWith(packId.split('@')[0] + '@') && r.tool === toolName`. -/
def fallbackPred (packId toolName : String) (r : Rule) : Bool :=
  strStarts r.pack (packNameOf packId ++ "@") && r.tool == toolName

/-- `pol.rules.find(exact) || pol.rules.find(fallback)`. -/
def findRule (rules : List Rule) (packId toolName : String) : Option Rule :=
  match rules.find? (exactPred packId toolName) with
  | some r => some r
  | none => rules.find? (fallbackPred packId toolName)

/-! ### Effective policy parameters (the mutable locals of stage 2) -/

/-- The locals `needsConfirm` / `confirmMessage` / `allowlist` / `rateLimit`
after the `if (rule) ... else ...` block. -/
structure EffPolicy where
  needsConfirm : Bool
  confirmMessage : String
  allowlist : List String
  rateLimit : RateLimit
deriving Repr, DecidableEq

/-- JS `opt || dflt` on an optional string (the empty string is falsy). -/
def jsStrOr (opt : Option String) (dflt : String) : String :=
  match opt with
  | some s => if s == "" then dflt else s
  | none => dflt

/-- Effective parameters: from the matched rule when present
(`!!rule.confirm?.required`, `rule.confirm?.message || default`,
`rule.allowlist || []`, `if (rule.rateLimit) rateLimit = rule.rateLimit`),
otherwise the initial values (`false`, `''`, `[]`, `{maxCalls: 20, windowSec: 60}`). -/
def effPolicy (rule? : Option Rule) (toolName : String) : EffPolicy :=
  match rule? with
  | some rule =>
    { needsConfirm := (rule.confirm.bind (fun c => c.required)).getD false
      confirmMessage :=
        jsStrOr (rule.confirm.bind (fun c => c.message)) ("Proceed with " ++ toolName ++ "?")
      allowlist := rule.allowlist.getD []
      rateLimit := rule.rateLimit.getD ⟨20, 60⟩ }
  | none =>
    { needsConfirm := false
      confirmMessage := ""
      allowlist := []
      rateLimit := ⟨20, 60⟩ }

/-! ### Allowlist enforcement and rate-limit simulation -/

/-- `bad = Object.keys(payload).filter(k => !allowlist.includes(k))`. -/
def extraKeysOf (payloadKeys allowlist : List String) : List String :=
  payloadKeys.filter (fun k => !(allowlist.contains k))

/-- The issues appended by allowlist enforcement: one message when the
allowlist is non-empty and some payload key falls outside it, none otherwise. -/
def allowIssues (payloadKeys allowlist : List String) : List String :=
  if allowlist.length > 0 then
    let bad := extraKeysOf payloadKeys allowlist
    if bad.length > 0 then
      ["allowlist: unexpected fields " ++ String.intercalate ", " bad]
    else []
  else []

/-- `wouldExceed = callsSoFar + 1 > rateLimit.maxCalls`. -/
def wouldExceed (callsSoFar : Nat) (maxCalls : Int) : Bool :=
  (callsSoFar : Int) + 1 > maxCalls

/-! ### Verdict surfaces: the status string and the exit sequences -/

/-- The `preview.status` expression of `dry-run` (checks, in order: issues,
confirmation, rate limit). -/
def statusString (issues : List String) (needsConfirm assumeYes exceeded : Bool) : String :=
  if issues.length > 0 then "blocked"
  else if needsConfirm && !assumeYes then "needs-confirmation"
  else if exceeded then "rate-limited"
  else "ok"

/-- Which terminal branch of the exit sequence fires (shared shape of the
`dry-run` and `exec` tails): issues exit first, then the rate-limit branch,
then the confirmation branch, else fall through. -/
inductive ExitOutcome where
  | blockedExit (issues : List String)
  | rateLimitedExit (attempted : Nat) (maxCalls windowSec : Int)
  | confirmExit (message : String)
  | okExit
deriving Repr, DecidableEq

/-- The exit sequence of `dry-run` (lines 467-482) and `exec` (lines 616-629):
`if (issues.length) exit(1); if (wouldExceed) exit(1); if (needsConfirm && !assumeYes) exit(2);`. -/
def exitSequence (issues : List String) (exceeded needsConfirm assumeYes : Bool)
    (attempted : Nat) (rl : RateLimit) (msg : String) : ExitOutcome :=
  if issues.length > 0 then .blockedExit issues
  else if exceeded then .rateLimitedExit attempted rl.maxCalls rl.windowSec
  else if needsConfirm && !assumeYes then .confirmExit msg
  else .okExit

/-- The process exit code of each terminal branch. -/
def exitCodeOf : ExitOutcome → Nat
  | .blockedExit _ => 1
  | .rateLimitedExit _ _ _ => 1
  | .confirmExit _ => 2
  | .okExit => 0

/-! ### The decision pipeline after schema validation -/

/-- Inputs of stages 2-3 of `dry-run` / `exec`: the loaded policy rules, the
tool selector, the schema issues produced by stage 1, the top-level payload
keys, the `--assume-yes` flag, and the (already clamped, `>= 0`) `--callsSoFar`
count. -/
structure DecideInput where
  rules : List Rule
  packId : String
  toolName : String
  schemaIssues : List String
  payloadKeys : List String
  assumeYes : Bool
  callsSoFar : Nat
deriving Repr, DecidableEq

/-- The effective policy parameters for an input. -/
def decideEff (i : DecideInput) : EffPolicy :=
  effPolicy (findRule i.rules i.packId i.toolName) i.toolName

/-- The full issue list: schema issues, then the allowlist issue if any. -/
def decideIssues (i : DecideInput) : List String :=
  i.schemaIssues ++ allowIssues i.payloadKeys (decideEff i).allowlist

/-- Whether this call would exceed the effective rate limit. -/
def decideExceeds (i : DecideInput) : Bool :=
  wouldExceed i.callsSoFar (decideEff i).rateLimit.maxCalls

/-- The `preview.status` string printed by `dry-run`. -/
def dryRunStatus (i : DecideInput) : String :=
  statusString (decideIssues i) (decideEff i).needsConfirm i.assumeYes (decideExceeds i)

/-- The exit-sequence branch taken by `dry-run` and `exec` on this input. -/
def execOutcome (i : DecideInput) : ExitOutcome :=
  exitSequence (decideIssues i) (decideExceeds i) (decideEff i).needsConfirm i.assumeYes
    (i.callsSoFar + 1) (decideEff i).rateLimit (decideEff i).confirmMessage

/-! ### Schema loading and validation stage (stage 1) -/

/-- The parts of a parsed schema document the pipeline looks at. -/
structure SchemaDoc where
  propNames : List String
  description : Option String
deriving Repr, DecidableEq

/-- What loading `<packDir>/<tool.schema>` produced: the file was absent, the
file existed but `JSON.parse` threw (warn-and-continue, `schema` stays `null`),
or a parsed document. -/
inductive SchemaLoad where
  | absent
  | parseFailed (err : String)
  | parsed (s : SchemaDoc)
deriving Repr, DecidableEq

/-- The `schema` local after the load block: `null` unless parsing succeeded. -/
def schemaOf : SchemaLoad → Option SchemaDoc
  | .absent => none
  | .parseFailed _ => none
  | .parsed s => some s

/-- Outcome of `ajv.compile(schema)` followed by `validate(payload)`:
either `compile` threw (an uncaught exception), or a list of issue strings. -/
inductive ValidateStep where
  | compileFail (err : String)
  | report (issues : List String)
deriving Repr, DecidableEq

/-- Stage 1 of `dry-run` / `exec`: no schema issues when `schema` is `null`;
otherwise compile and validate, where a compile exception escapes
(modelled as `Except.error`). -/
def schemaStage (load : SchemaLoad) (v : SchemaDoc → ValidateStep) :
    Except String (List String) :=
  match schemaOf load with
  | none => .ok []
  | some s =>
    match v s with
    | .compileFail e => .error e
    | .report issues => .ok issues

/-- One whole call as seen by `dry-run` / `exec`, before schema validation. -/
structure ToolCall where
  rules : List Rule
  packId : String
  toolName : String
  load : SchemaLoad
  payloadKeys : List String
  assumeYes : Bool
  callsSoFar : Nat
deriving Repr, DecidableEq

/-- The stage 2-3 input a call reduces to once stage 1 produced `issues`. -/
def toDecideInput (c : ToolCall) (schemaIssues : List String) : DecideInput :=
  { rules := c.rules, packId := c.packId, toolName := c.toolName
    schemaIssues := schemaIssues, payloadKeys := c.payloadKeys
    assumeYes := c.assumeYes, callsSoFar := c.callsSoFar }

/-- The full `dry-run` status for a call: an uncaught compile exception, or
the printed status string. -/
def runDryRun (c : ToolCall) (v : SchemaDoc → ValidateStep) : Except String String :=
  match schemaStage c.load v with
  | .error e => .error e
  | .ok issues => .ok (dryRunStatus (toDecideInput c issues))

/-- The full `exec` outcome for a call: an uncaught compile exception, or the
exit-sequence branch taken. -/
def runExec (c : ToolCall) (v : SchemaDoc → ValidateStep) : Except String ExitOutcome :=
  match schemaStage c.load v with
  | .error e => .error e
  | .ok issues => .ok (execOutcome (toDecideInput c issues))

/-! ## Claim theorems -/

/-- **C4**: the rate-limit check is exactly `wouldExceed = callsSoFar + 1 > maxCalls`:
for every `maxCalls ≥ 1`, a window count of `maxCalls - 1` is not exceeded and a
window count of `maxCalls` is exceeded, and whenever the exit sequence takes the
rate-limit branch the reported attempted count is `callsSoFar + 1`. -/
theorem c4_rate_limit_boundary (m : Int) (h : 1 ≤ m) :
    wouldExceed (m - 1).toNat m = false ∧ wouldExceed m.toNat m = true ∧
    ∀ (i : DecideInput) (a : Nat) (mc ws : Int),
      execOutcome i = .rateLimitedExit a mc ws → a = i.callsSoFar + 1 := by
  refine ⟨?_, ?_, ?_⟩
  · unfold wouldExceed
    simp only [decide_eq_false_iff_not, not_lt]
    omega
  · unfold wouldExceed
    simp only [decide_eq_true_eq]
    omega
  · intro i a mc ws hEq
    unfold execOutcome exitSequence at hEq
    split at hEq
    · simp at hEq
    · split at hEq
      · injection hEq with h1 _ _
        exact h1.symm
      · split at hEq <;> simp at hEq

/-- Witness for C4 at the spec's own boundary example `maxCalls = 20`. -/
theorem c4_rate_limit_boundary_witness :
    (1 : Int) ≤ 20 ∧ wouldExceed 19 20 = false ∧ wouldExceed 20 20 = true := by
  have h := c4_rate_limit_boundary 20 (by norm_num)
  exact ⟨by norm_num, h.1, h.2.1⟩

/-- **C9**: allowlist enforcement applies only when the effective allowlist is
non-empty: an empty allowlist produces no issue for any payload; with a non-empty
allowlist exactly the top-level payload keys outside the allowlist are flagged,
in one issue of the form `allowlist: unexpected fields <comma-joined keys>`. -/
theorem c9_allowlist_enforcement (keys A : List String) :
    (A = [] → allowIssues keys A = []) ∧
    (∀ k, k ∈ extraKeysOf keys A ↔ k ∈ keys ∧ k ∉ A) ∧
    (A ≠ [] → extraKeysOf keys A ≠ [] →
      allowIssues keys A =
        ["allowlist: unexpected fields " ++ String.intercalate ", " (extraKeysOf keys A)]) ∧
    (A ≠ [] → extraKeysOf keys A = [] → allowIssues keys A = []) := by
  refine ⟨?_, ?_, ?_, ?_⟩
  · rintro rfl
    simp [allowIssues]
  · intro k
    simp [extraKeysOf, List.mem_filter, List.elem_iff]
  · intro hA hx
    have h1 : 0 < A.length := List.length_pos.mpr hA
    have h2 : 0 < (extraKeysOf keys A).length := List.length_pos.mpr hx
    simp [allowIssues, h1, h2]
  · intro hA hx
    have h1 : 0 < A.length := List.length_pos.mpr hA
    simp [allowIssues, h1, hx]

/-- Witness for C9: key `b` is outside the allowlist `[a]`, key `a` is not. -/
theorem c9_allowlist_enforcement_witness :
    allowIssues ["a", "b"] ["a"] = ["allowlist: unexpected fields b"] := by
  have h := (c9_allowlist_enforcement ["a", "b"] ["a"]).2.2.1 (by decide) (by decide)
  rw [h]
  decide

/-- **C10**: allowlist enforcement compares payload keys to allowlist entries by
exact, case-sensitive equality: a key that differs from an allowlisted field only
in letter case (and is not itself listed) is flagged as unexpected, while the
sensitive-field test used during suggestion is invariant under case changes. -/
theorem c10_case_sensitive_allowlist (keys A : List String) (k a : String)
    (ha : a ∈ A) (hk : k ∈ keys) (_hlow : lowerStr k = lowerStr a) (hne : k ∉ A) :
    k ∈ extraKeysOf keys A ∧ allowIssues keys A ≠ [] ∧
    ∀ k₁ k₂ : String, lowerStr k₁ = lowerStr k₂ → sensitiveB k₁ = sensitiveB k₂ := by
  have hm : k ∈ extraKeysOf keys A := by
    simp [extraKeysOf, List.mem_filter, List.elem_iff]
    exact ⟨hk, hne⟩
  refine ⟨hm, ?_, ?_⟩
  · have h1 : 0 < A.length := List.length_pos.mpr (by rintro rfl; simp at ha)
    have h2 : 0 < (extraKeysOf keys A).length :=
      List.length_pos.mpr (by intro h; rw [h] at hm; simp at hm)
    simp [allowIssues, h1, h2]
  · intro k₁ k₂ h
    simp only [sensitiveB, h]

/-- Witness for C10: payload key `Title` against allowlist `[title]` is flagged. -/
theorem c10_case_sensitive_allowlist_witness :
    "Title" ∈ extraKeysOf ["Title"] ["title"] ∧ allowIssues ["Title"] ["title"] ≠ [] :=
  have h := c10_case_sensitive_allowlist ["Title"] ["title"] "Title" "title"
    (by decide) (by decide) (by decide) (by decide)
  ⟨h.1, h.2.1⟩

/-- **C7**: rule lookup is two-phase: a rule found by exact `(packId, toolName)`
match is always the result; only when no exact match exists does the lookup
return the first pack-name-`@`-pre-match rule with the right tool name; with
neither kind of match the lookup yields no rule. -/
theorem c7_rule_lookup_two_phase (rules : List Rule) (packId toolName : String) :
    (∀ r, rules.find? (exactPred packId toolName) = some r →
      findRule rules packId toolName = some r) ∧
    (rules.find? (exactPred packId toolName) = none →
      findRule rules packId toolName = rules.find? (fallbackPred packId toolName)) ∧
    ((∃ r ∈ rules, exactPred packId toolName r = true) →
      ∃ r, findRule rules packId toolName = some r ∧ exactPred packId toolName r = true) ∧
    ((∀ r ∈ rules, exactPred packId toolName r = false) →
      (∀ r ∈ rules, fallbackPred packId toolName r = false) →
      findRule rules packId toolName = none) := by
  refine ⟨?_, ?_, ?_, ?_⟩
  · intro r h
    unfold findRule
    rw [h]
  · intro h
    unfold findRule
    rw [h]
  · rintro ⟨r, hr, hp⟩
    have hs : (rules.find? (exactPred packId toolName)).isSome :=
      List.find?_isSome.mpr ⟨r, hr, hp⟩
    obtain ⟨r', hr'⟩ := Option.isSome_iff_exists.mp hs
    refine ⟨r', ?_, List.find?_some hr'⟩
    unfold findRule
    rw [hr']
  · intro h1 h2
    unfold findRule
    rw [List.find?_eq_none.mpr (fun x hx => by simp [h1 x hx]),
      List.find?_eq_none.mpr (fun x hx => by simp [h2 x hx])]

/-- Witness for C7: the exact rule (for `a@1.0.0`) wins even though a rule of a
different version of the same pack (`a@2.0.0`) occurs earlier in the list. -/
theorem c7_rule_lookup_two_phase_witness :
    findRule
      [{ pack := "a@2.0.0", tool := "t", description := none, confirm := none,
         allowlist := none, rateLimit := none },
       { pack := "a@1.0.0", tool := "t", description := none, confirm := none,
         allowlist := none, rateLimit := none }]
      "a@1.0.0" "t" =
      some { pack := "a@1.0.0", tool := "t", description := none, confirm := none,
             allowlist := none, rateLimit := none } :=
  (c7_rule_lookup_two_phase _ "a@1.0.0" "t").1 _ (by decide)

/-- The suggester marks a tool confirm-required exactly when some side-effect
tag, lowercased, is one of the fixed keywords. -/
theorem needsConfirmOf_iff (tags : List String) :
    needsConfirmOf tags = true ↔ ∃ s ∈ tags, lowerStr s ∈ confirmKeywords := by
  unfold needsConfirmOf
  simp [List.any_map, List.any_eq_true, Function.comp, List.elem_iff]

/-- **C5**: `suggest` sets `confirm.required` to `true` iff the tool's
side-effect tags, compared case-insensitively, contain one of the keywords
`send, create, update, delete, write, post`; when required, the confirm message
is `Proceed with <toolName>?`, and otherwise no message is attached. -/
theorem c5_confirm_requirement (p : String) (t : ToolMeta) (d : RateLimit) :
    ((suggestRule p t d).confirm.bind (fun c => c.required) = some true ↔
      ∃ s ∈ t.sideEffects, lowerStr s ∈ confirmKeywords) ∧
    (needsConfirmOf t.sideEffects = true →
      (suggestRule p t d).confirm =
        some ⟨some ("Proceed with " ++ t.name ++ "?"), some true⟩) ∧
    (needsConfirmOf t.sideEffects = false →
      (suggestRule p t d).confirm = some ⟨none, some false⟩) := by
  refine ⟨?_, ?_, ?_⟩
  · rw [← needsConfirmOf_iff]
    unfold suggestRule
    cases hN : needsConfirmOf t.sideEffects <;> simp [hN]
  · intro h
    simp [suggestRule, h]
  · intro h
    simp [suggestRule, h]

/-- Witness for C5: the tag `SEND` (any case) forces a confirmation with the
message `Proceed with send_email?`. -/
theorem c5_confirm_requirement_witness :
    (suggestRule "email-basic@1.0.0"
        { name := "send_email", sideEffects := ["SEND"], allowlistFields := [],
          schemaProps := [], schemaDescription := none }
        ⟨20, 60⟩).confirm =
      some ⟨some "Proceed with send_email?", some true⟩ :=
  (c5_confirm_requirement "email-basic@1.0.0" _ ⟨20, 60⟩).2.1 (by decide)

/-- **C6**: the suggested allowlist is the explicit allowlist verbatim when that
list is non-empty; otherwise it is the schema's property names with exactly the
names removed that case-insensitively contain one of the substrings
`password, secret, token, apikey, api_key, auth, bearer, credential`; a schema
with no properties yields an empty inferred allowlist. -/
theorem c6_allowlist_suggestion (p : String) (t : ToolMeta) (d : RateLimit) :
    (t.allowlistFields ≠ [] → (suggestRule p t d).allowlist = some t.allowlistFields) ∧
    (t.allowlistFields = [] →
      (suggestRule p t d).allowlist = some (inferredAllowOf t.schemaProps)) ∧
    (∀ k, k ∈ inferredAllowOf t.schemaProps ↔
      k ∈ t.schemaProps ∧ ∀ pat ∈ sensitiveNames, ¬ pat.data <:+: (lowerStr k).data) ∧
    inferredAllowOf ([] : List String) = [] := by
  refine ⟨?_, ?_, ?_, rfl⟩
  · intro h
    have hl : t.allowlistFields.length ≠ 0 := by
      simpa [List.length_eq_zero] using h
    simp [suggestRule, hl]
  · intro h
    simp [suggestRule, h]
  · intro k
    simp only [inferredAllowOf, List.mem_filter, Bool.not_eq_true', and_congr_right_iff]
    intro _
    unfold sensitiveB
    simp only [List.any_eq_false, strContainsSub, charsHaveSub_iff]

/-- Witness for C6: with no explicit allowlist, `title` survives inference while
`password_hash` and `ApiKey` are removed; the explicit list wins when present. -/
theorem c6_allowlist_suggestion_witness :
    (suggestRule "p@1.0.0"
        { name := "t", sideEffects := [], allowlistFields := [],
          schemaProps := ["title", "password_hash", "ApiKey"], schemaDescription := none }
        ⟨20, 60⟩).allowlist = some ["title"] := by
  have h := (c6_allowlist_suggestion "p@1.0.0"
    { name := "t", sideEffects := [], allowlistFields := [],
      schemaProps := ["title", "password_hash", "ApiKey"], schemaDescription := none }
    ⟨20, 60⟩).2.1 rfl
  rw [h]
  decide

/-! ### Concrete inputs for the precedence, no-rule, schema-failure and
clamping claims -/

/-- A rule requiring confirmation with a rate limit of one call per window. -/
def confirmRule : Rule :=
  { pack := "p@1.0.0", tool := "t", description := none
    confirm := some ⟨some "Proceed with t?", some true⟩
    allowlist := some [], rateLimit := some ⟨1, 60⟩ }

/-- A call under `confirmRule` with a valid payload, confirmation not granted,
and the quota already exhausted (`callsSoFar = maxCalls = 1`). -/
def confirmAndQuotaInput : DecideInput :=
  { rules := [confirmRule], packId := "p@1.0.0", toolName := "t", schemaIssues := []
    payloadKeys := ["x"], assumeYes := false, callsSoFar := 1 }

/-- **C1**: on a valid payload with confirmation required-but-ungranted and the
quota exceeded, the status string follows the claimed order (confirmation before
rate limit, giving `needs-confirmation`), but the exit sequences of `dry-run`
and `exec` check the rate limit first: the same run takes the rate-limited exit
branch (exit code 1) instead of the confirmation branch (exit code 2). -/
theorem c1_exit_checks_rate_before_confirm :
    dryRunStatus confirmAndQuotaInput = "needs-confirmation" ∧
    execOutcome confirmAndQuotaInput = .rateLimitedExit 2 1 60 ∧
    exitCodeOf (execOutcome confirmAndQuotaInput) = 1 := by
  decide

/-- A call whose selector matches no rule at all, with the window count at the
built-in default limit of 20. -/
def ruleLessInput : DecideInput :=
  { rules := [], packId := "p@1.0.0", toolName := "t", schemaIssues := []
    payloadKeys := [], assumeYes := true, callsSoFar := 20 }

/-- Counterexample to **C2**: a rule-less call *is* rate-limited.  With no
matching rule the rate limit stays at the initial default `{maxCalls: 20,
windowSec: 60}` and `wouldExceed` is still evaluated, so `callsSoFar = 20`
yields the rate-limited status and exit branch. -/
theorem c2_ruleless_still_rate_limited :
    findRule ruleLessInput.rules ruleLessInput.packId ruleLessInput.toolName = none ∧
    dryRunStatus ruleLessInput = "rate-limited" ∧
    execOutcome ruleLessInput = .rateLimitedExit 21 20 60 := by
  decide

/-- **C2** (amended): when no rule matches, allowlist and confirmation default
permissively (no allowlist restriction, no confirmation, no extra issues), but
rate limiting is still evaluated against the built-in default `maxCalls = 20`:
the call is rate-limited exactly when the payload is issue-free and
`callsSoFar ≥ 20`. -/
theorem c2_ruleless_defaults (i : DecideInput)
    (h : findRule i.rules i.packId i.toolName = none) :
    decideEff i = ⟨false, "", [], ⟨20, 60⟩⟩ ∧
    decideIssues i = i.schemaIssues ∧
    (dryRunStatus i = "rate-limited" ↔ i.schemaIssues = [] ∧ 20 ≤ i.callsSoFar) := by
  have he : decideEff i = ⟨false, "", [], ⟨20, 60⟩⟩ := by
    unfold decideEff
    rw [h]
    rfl
  have hi : decideIssues i = i.schemaIssues := by
    unfold decideIssues
    rw [he]
    simp [allowIssues]
  refine ⟨he, hi, ?_⟩
  unfold dryRunStatus statusString decideExceeds
  rw [he, hi]
  by_cases hs : i.schemaIssues = []
  · by_cases hc : 20 ≤ i.callsSoFar
    · have hw : wouldExceed i.callsSoFar 20 = true := by
        unfold wouldExceed
        simp only [decide_eq_true_eq]
        omega
      simp [hs, hc, hw]
    · have hw : wouldExceed i.callsSoFar 20 = false := by
        unfold wouldExceed
        simp only [decide_eq_false_iff_not, not_lt]
        omega
      simp [hs, hc, hw]
  · have hl : 0 < i.schemaIssues.length :=
      List.length_pos.mpr hs
    simp [hs, hl]

/-- Witness for the amended C2 at the counterexample input. -/
theorem c2_ruleless_defaults_witness :
    decideEff ruleLessInput = ⟨false, "", [], ⟨20, 60⟩⟩ ∧
    decideIssues ruleLessInput = ruleLessInput.schemaIssues ∧
    (dryRunStatus ruleLessInput = "rate-limited" ↔
      ruleLessInput.schemaIssues = [] ∧ 20 ≤ ruleLessInput.callsSoFar) :=
  c2_ruleless_defaults ruleLessInput (by decide)

/-- A call whose schema file exists but fails `JSON.parse`. -/
def badSchemaCall : ToolCall :=
  { rules := [], packId := "p@1.0.0", toolName := "t"
    load := .parseFailed "Unexpected token"
    payloadKeys := ["x"], assumeYes := true, callsSoFar := 0 }

/-- A validator that would reject every payload, had the schema compiled. -/
def rejectingValidator : SchemaDoc → ValidateStep :=
  fun _ => .report ["schema: / must have required property"]

/-- Counterexample to **C3**: for a tool whose schema document fails to parse,
`dry-run` and `exec` do not halt with a distinct failure: they warn, continue
with no schema at all, and produce the regular verdict `ok` — even though the
validator would have rejected the payload had the schema been usable. -/
theorem c3_parse_failure_not_distinct :
    runDryRun badSchemaCall rejectingValidator = .ok "ok" ∧
    runExec badSchemaCall rejectingValidator = .ok .okExit :=
  ⟨rfl, rfl⟩

/-- **C3** (amended): a schema document that fails to *parse* is treated exactly
like an absent schema — evaluation continues with zero schema issues to a
regular verdict; only a schema that parses but fails to *compile* halts the run
(as an uncaught exception), before any payload check. -/
theorem c3_parse_failed_continues (e : String) (v : SchemaDoc → ValidateStep)
    (c : ToolCall) :
    runDryRun { c with load := .parseFailed e } v =
      runDryRun { c with load := .absent } v ∧
    runExec { c with load := .parseFailed e } v =
      runExec { c with load := .absent } v ∧
    (∀ s err, v s = .compileFail err →
      runDryRun { c with load := .parsed s } v = .error err ∧
      runExec { c with load := .parsed s } v = .error err) := by
  refine ⟨rfl, rfl, ?_⟩
  intro s err hv
  constructor
  · simp [runDryRun, schemaStage, schemaOf, hv]
  · simp [runExec, schemaStage, schemaOf, hv]

/-- Witness for the amended C3 at the counterexample call with a validator whose
compilation fails. -/
theorem c3_parse_failed_continues_witness :
    runDryRun badSchemaCall rejectingValidator =
      runDryRun { badSchemaCall with load := .absent } rejectingValidator ∧
    runDryRun { badSchemaCall with load := .parsed ⟨[], none⟩ }
        (fun _ => .compileFail "strict mode error") =
      .error "strict mode error" :=
  ⟨(c3_parse_failed_continues "Unexpected token" rejectingValidator badSchemaCall).1,
    ((c3_parse_failed_continues "Unexpected token" (fun _ => .compileFail "strict mode error")
      badSchemaCall).2.2 ⟨[], none⟩ "strict mode error" rfl).1⟩

/-- A hand-edited rule carrying the non-positive rate limit `maxCalls = 0`. -/
def zeroLimitRule : Rule :=
  { pack := "p@1.0.0", tool := "t", description := none, confirm := none
    allowlist := some [], rateLimit := some ⟨0, 60⟩ }

/-- A first call (fresh window) under `zeroLimitRule` with a valid payload. -/
def zeroLimitInput : DecideInput :=
  { rules := [zeroLimitRule], packId := "p@1.0.0", toolName := "t", schemaIssues := []
    payloadKeys := [], assumeYes := true, callsSoFar := 0 }

/-- Counterexample to **C8**: the decision path does not clamp: a rule with
`maxCalls = 0` is used verbatim (the effective value is not `≥ 1`), so the very
first call in a fresh window is already rate-limited, instead of the `Ok` that
clamping to 1 would give. -/
theorem c8_decision_does_not_clamp :
    ¬ (1 ≤ (decideEff zeroLimitInput).rateLimit.maxCalls) ∧
    dryRunStatus zeroLimitInput = "rate-limited" ∧
    execOutcome zeroLimitInput = .rateLimitedExit 1 0 60 := by
  decide

/-- **C8** (amended): only the suggester clamps — its caller-supplied defaults
are normalized to a minimum of 1 and copied verbatim into every suggested rule,
so suggested rules always carry positive values; the decision path copies a
rule's `rateLimit` verbatim without any clamping. -/
theorem c8_clamp_only_in_suggester (rl ws : Int) :
    1 ≤ (suggestDefaults rl ws).maxCalls ∧
    1 ≤ (suggestDefaults rl ws).windowSec ∧
    (∀ (p : String) (t : ToolMeta) (d : RateLimit),
      (suggestRule p t d).rateLimit = some d) ∧
    (∀ (rule : Rule) (r : RateLimit) (tn : String),
      rule.rateLimit = some r → (effPolicy (some rule) tn).rateLimit = r) := by
  refine ⟨le_max_left 1 rl, le_max_left 1 ws, fun _ _ _ => rfl, ?_⟩
  intro rule r tn h
  simp [effPolicy, h]

/-- Witness for the amended C8: negative defaults are clamped to 1 by the
suggester, while the decision path keeps `maxCalls = 0` from `zeroLimitRule`. -/
theorem c8_clamp_only_in_suggester_witness :
    1 ≤ (suggestDefaults (-5) 0).maxCalls ∧
    (effPolicy (some zeroLimitRule) "t").rateLimit = ⟨0, 60⟩ :=
  ⟨(c8_clamp_only_in_suggester (-5) 0).1,
    (c8_clamp_only_in_suggester 0 0).2.2.2 zeroLimitRule ⟨0, 60⟩ "t" rfl⟩

end ActionPacks
